import Mathlib

/-!
A verification development for the `sqlite3builder` crate.

`src/src/lib.rs` is a thin fluent wrapper: every `Sqlite3Builder` method
forwards to the underlying statement-assembly engine (the `SqlBuilder`
state and its renderers) and the free escaping functions `esc`/`quote`.
That engine's own source is not part of this repository's files, so the
state machine and the renderers below are modelled from the specification
(data model §3, accumulators §4.1, renderers §4.2, escaping §4.3,
errors §7) and cross-checked against each exact output string the
repository's doc-tests and unit tests in `src/src/lib.rs` assert.
-/

/-- The single-quote character, written by code so no literal apostrophe
appears in the file. -/
def squote : Char := Char.ofNat 39

/-- One-character string holding a single quote. -/
def squoteS : String := String.singleton squote

/-- Modelled from the spec: `escape(s)` doubles every single-quote
character and alters nothing else (§4.3); the repository re-exports it
as `esc` (src/src/lib.rs:2206). Defined by recursion on the character
list. -/
def escChars : List Char → List Char
  | [] => []
  | c :: cs => if c = squote then squote :: squote :: escChars cs else c :: escChars cs

/-- Escape a string for SQL: double every single quote (src/src/lib.rs:2206). -/
def esc (src : String) : String := ⟨escChars src.data⟩

/-- Quote a string for SQL: wrap the escaped result in single quotes
(src/src/lib.rs:2221; §4.3). -/
def quote (src : String) : String := squoteS ++ esc src ++ squoteS

/-- The statement kinds the builder dispatches on (§3 `kind`, plus the
table-less `select_values` form exposed by `Sqlite3Builder::select_values`,
src/src/lib.rs:137). -/
inductive Smt
  | select_from
  | select_values
  | insert_into
  | update_table
  | delete_from
deriving DecidableEq, Repr

/-- Structural render-time errors (§7): these are the only error cases. -/
inductive SqlError
  | noTableName
  | noValues
  | noSetFields
deriving DecidableEq, Repr

/-- Modelled from the spec: the builder's state (§3 data model). Ordered
lists keep call order; `select_src` holds the raw select-query string an
Insert uses instead of VALUES; `unions` accumulates the rendered
`UNION [ALL] ...` tail. -/
structure SqlBuilder where
  smt : Smt
  table : String
  is_distinct : Bool := false
  field_list : List String := []
  join_list : List String := []
  set_list : List String := []
  values_list : List String := []
  select_src : Option String := none
  group_list : List String := []
  having_opt : Option String := none
  wheres : List String := []
  unions : String := ""
  order_list : List String := []
  limit_opt : Option String := none
  offset_opt : Option String := none
deriving DecidableEq, Repr

namespace SqlBuilder

/-- Create a SELECT query (src/src/lib.rs:113). -/
def select_from (table : String) : SqlBuilder :=
  { smt := .select_from, table := table }

/-- Create a SELECT query without a table (src/src/lib.rs:137). -/
def select_values (values : List String) : SqlBuilder :=
  { smt := .select_values, table := "", field_list := values }

/-- Create an INSERT query (src/src/lib.rs:165). -/
def insert_into (table : String) : SqlBuilder :=
  { smt := .insert_into, table := table }

/-- Create an UPDATE query (src/src/lib.rs:190). -/
def update_table (table : String) : SqlBuilder :=
  { smt := .update_table, table := table }

/-- Create a DELETE query (src/src/lib.rs:215). -/
def delete_from (table : String) : SqlBuilder :=
  { smt := .delete_from, table := table }

/-- Add a field (src/src/lib.rs:557). -/
def field (s : SqlBuilder) (f : String) : SqlBuilder :=
  { s with field_list := s.field_list ++ [f] }

/-- Add many fields (src/src/lib.rs:480). -/
def fields (s : SqlBuilder) (fs : List String) : SqlBuilder :=
  { s with field_list := s.field_list ++ fs }

/-- Replace the fields with one field (src/src/lib.rs:611). -/
def set_field (s : SqlBuilder) (f : String) : SqlBuilder :=
  { s with field_list := [f] }

/-- Replace the fields wholesale (src/src/lib.rs:532). -/
def set_fields (s : SqlBuilder) (fs : List String) : SqlBuilder :=
  { s with field_list := fs }

/-- Add a SET part for UPDATE (src/src/lib.rs:635). -/
def set (s : SqlBuilder) (f v : String) : SqlBuilder :=
  { s with set_list := s.set_list ++ [f ++ " = " ++ v] }

/-- Add a SET part with a quoted, escaped string value (src/src/lib.rs:664). -/
def set_str (s : SqlBuilder) (f v : String) : SqlBuilder :=
  { s with set_list := s.set_list ++ [f ++ " = " ++ quote v] }

/-- Add one parenthesized VALUES tuple for INSERT (src/src/lib.rs:695). -/
def values (s : SqlBuilder) (vs : List String) : SqlBuilder :=
  { s with values_list := s.values_list ++ ["(" ++ String.intercalate ", " vs ++ ")"] }

/-- Install a raw select query as the INSERT source (src/src/lib.rs:728). -/
def select (s : SqlBuilder) (query : String) : SqlBuilder :=
  { s with select_src := some query }

/-- Join with a table (src/src/lib.rs:405; join-type modifiers are not
needed by any claim and are left out of the model). -/
def join (s : SqlBuilder) (table : String) : SqlBuilder :=
  { s with join_list := s.join_list ++ ["JOIN " ++ table] }

/-- Append the ON constraint to the most recently pushed join (src/src/lib.rs:432). -/
def on_join (s : SqlBuilder) (constraint : String) : SqlBuilder :=
  { s with join_list :=
      match s.join_list.reverse with
      | [] => s.join_list
      | last :: rest => ((last ++ " ON " ++ constraint) :: rest).reverse }

/-- Set DISTINCT (src/src/lib.rs:456). -/
def distinct (s : SqlBuilder) : SqlBuilder :=
  { s with is_distinct := true }

/-- Add a GROUP BY expression (src/src/lib.rs:755). -/
def group_by (s : SqlBuilder) (f : String) : SqlBuilder :=
  { s with group_list := s.group_list ++ [f] }

/-- Set the HAVING condition (src/src/lib.rs:783). -/
def having (s : SqlBuilder) (cond : String) : SqlBuilder :=
  { s with having_opt := some cond }

/-- Append a new independent WHERE condition (src/src/lib.rs:810). -/
def and_where (s : SqlBuilder) (cond : String) : SqlBuilder :=
  { s with wheres := s.wheres ++ [cond] }

/-- Extend the last element of a condition list with `OR cond`; on an
empty list push `cond` as the first entry (§4.1 `or_where*`). -/
def orLast : List String → String → List String
  | [], cond => [cond]
  | [w], cond => [w ++ " OR " ++ cond]
  | w :: ws, cond => w :: orLast ws cond

/-- Concatenate an OR condition onto the last pushed WHERE entry
(src/src/lib.rs:1297). -/
def or_where (s : SqlBuilder) (cond : String) : SqlBuilder :=
  { s with wheres := orLast s.wheres cond }

/-- Condition text of the comparison-style WHERE helpers (§4.1). -/
def condEq (f v : String) : String := f ++ " = " ++ v
def condNe (f v : String) : String := f ++ " <> " ++ v
def condGt (f v : String) : String := f ++ " > " ++ v
def condGe (f v : String) : String := f ++ " >= " ++ v
def condLt (f v : String) : String := f ++ " < " ++ v
def condLe (f v : String) : String := f ++ " <= " ++ v

/-- Condition text of the LIKE helpers: the mask is escaped and wrapped in
quotes, with `%` added per variant (§4.1, doc-tests src/src/lib.rs:1013-1223). -/
def condLike (f mask : String) : String :=
  f ++ " LIKE " ++ squoteS ++ esc mask ++ squoteS
def condLikeRight (f mask : String) : String :=
  f ++ " LIKE " ++ squoteS ++ "%" ++ esc mask ++ squoteS
def condLikeLeft (f mask : String) : String :=
  f ++ " LIKE " ++ squoteS ++ esc mask ++ "%" ++ squoteS
def condLikeAny (f mask : String) : String :=
  f ++ " LIKE " ++ squoteS ++ "%" ++ esc mask ++ "%" ++ squoteS
def condNotLike (f mask : String) : String :=
  f ++ " NOT LIKE " ++ squoteS ++ esc mask ++ squoteS
def condNotLikeRight (f mask : String) : String :=
  f ++ " NOT LIKE " ++ squoteS ++ "%" ++ esc mask ++ squoteS
def condNotLikeLeft (f mask : String) : String :=
  f ++ " NOT LIKE " ++ squoteS ++ esc mask ++ "%" ++ squoteS
def condNotLikeAny (f mask : String) : String :=
  f ++ " NOT LIKE " ++ squoteS ++ "%" ++ esc mask ++ "%" ++ squoteS
def condIsNull (f : String) : String := f ++ " IS NULL"
def condIsNotNull (f : String) : String := f ++ " IS NOT NULL"

def and_where_eq (s : SqlBuilder) (f v : String) : SqlBuilder := s.and_where (condEq f v)
def and_where_ne (s : SqlBuilder) (f v : String) : SqlBuilder := s.and_where (condNe f v)
def and_where_gt (s : SqlBuilder) (f v : String) : SqlBuilder := s.and_where (condGt f v)
def and_where_ge (s : SqlBuilder) (f v : String) : SqlBuilder := s.and_where (condGe f v)
def and_where_lt (s : SqlBuilder) (f v : String) : SqlBuilder := s.and_where (condLt f v)
def and_where_le (s : SqlBuilder) (f v : String) : SqlBuilder := s.and_where (condLe f v)
def and_where_like (s : SqlBuilder) (f mask : String) : SqlBuilder :=
  s.and_where (condLike f mask)
def and_where_like_right (s : SqlBuilder) (f mask : String) : SqlBuilder :=
  s.and_where (condLikeRight f mask)
def and_where_like_left (s : SqlBuilder) (f mask : String) : SqlBuilder :=
  s.and_where (condLikeLeft f mask)
def and_where_like_any (s : SqlBuilder) (f mask : String) : SqlBuilder :=
  s.and_where (condLikeAny f mask)
def and_where_not_like (s : SqlBuilder) (f mask : String) : SqlBuilder :=
  s.and_where (condNotLike f mask)
def and_where_not_like_right (s : SqlBuilder) (f mask : String) : SqlBuilder :=
  s.and_where (condNotLikeRight f mask)
def and_where_not_like_left (s : SqlBuilder) (f mask : String) : SqlBuilder :=
  s.and_where (condNotLikeLeft f mask)
def and_where_not_like_any (s : SqlBuilder) (f mask : String) : SqlBuilder :=
  s.and_where (condNotLikeAny f mask)
def and_where_is_null (s : SqlBuilder) (f : String) : SqlBuilder :=
  s.and_where (condIsNull f)
def and_where_is_not_null (s : SqlBuilder) (f : String) : SqlBuilder :=
  s.and_where (condIsNotNull f)

def or_where_eq (s : SqlBuilder) (f v : String) : SqlBuilder := s.or_where (SqlBuilder.condEq f v)
def or_where_ne (s : SqlBuilder) (f v : String) : SqlBuilder := s.or_where (SqlBuilder.condNe f v)
def or_where_gt (s : SqlBuilder) (f v : String) : SqlBuilder := s.or_where (SqlBuilder.condGt f v)
def or_where_ge (s : SqlBuilder) (f v : String) : SqlBuilder := s.or_where (SqlBuilder.condGe f v)
def or_where_lt (s : SqlBuilder) (f v : String) : SqlBuilder := s.or_where (SqlBuilder.condLt f v)
def or_where_le (s : SqlBuilder) (f v : String) : SqlBuilder := s.or_where (SqlBuilder.condLe f v)
def or_where_like (s : SqlBuilder) (f mask : String) : SqlBuilder :=
  s.or_where (SqlBuilder.condLike f mask)
def or_where_like_right (s : SqlBuilder) (f mask : String) : SqlBuilder :=
  s.or_where (SqlBuilder.condLikeRight f mask)
def or_where_like_left (s : SqlBuilder) (f mask : String) : SqlBuilder :=
  s.or_where (SqlBuilder.condLikeLeft f mask)
def or_where_like_any (s : SqlBuilder) (f mask : String) : SqlBuilder :=
  s.or_where (SqlBuilder.condLikeAny f mask)
def or_where_not_like (s : SqlBuilder) (f mask : String) : SqlBuilder :=
  s.or_where (SqlBuilder.condNotLike f mask)
def or_where_not_like_right (s : SqlBuilder) (f mask : String) : SqlBuilder :=
  s.or_where (SqlBuilder.condNotLikeRight f mask)
def or_where_not_like_left (s : SqlBuilder) (f mask : String) : SqlBuilder :=
  s.or_where (SqlBuilder.condNotLikeLeft f mask)
def or_where_not_like_any (s : SqlBuilder) (f mask : String) : SqlBuilder :=
  s.or_where (SqlBuilder.condNotLikeAny f mask)
def or_where_is_null (s : SqlBuilder) (f : String) : SqlBuilder :=
  s.or_where (SqlBuilder.condIsNull f)
def or_where_is_not_null (s : SqlBuilder) (f : String) : SqlBuilder :=
  s.or_where (SqlBuilder.condIsNotNull f)

/-- Append a `UNION` fragment (src/src/lib.rs:1809). -/
def union (s : SqlBuilder) (query : String) : SqlBuilder :=
  { s with unions := s.unions ++ " UNION " ++ query }

/-- Append a `UNION ALL` fragment (src/src/lib.rs:1841). -/
def union_all (s : SqlBuilder) (query : String) : SqlBuilder :=
  { s with unions := s.unions ++ " UNION ALL " ++ query }

/-- Add an ORDER BY entry, `DESC` when requested (src/src/lib.rs:1868). -/
def order_by (s : SqlBuilder) (f : String) (desc : Bool) : SqlBuilder :=
  { s with order_list := s.order_list ++ [if desc then f ++ " DESC" else f] }

/-- Add an ascending ORDER BY entry (src/src/lib.rs:1895). -/
def order_asc (s : SqlBuilder) (f : String) : SqlBuilder := s.order_by f false

/-- Add a descending ORDER BY entry (src/src/lib.rs:1922). -/
def order_desc (s : SqlBuilder) (f : String) : SqlBuilder := s.order_by f true

/-- Set LIMIT, last write wins (src/src/lib.rs:1950). -/
def limit (s : SqlBuilder) (n : String) : SqlBuilder :=
  { s with limit_opt := some n }

/-- Set OFFSET, last write wins (src/src/lib.rs:1979). -/
def offset (s : SqlBuilder) (n : String) : SqlBuilder :=
  { s with offset_opt := some n }

end SqlBuilder

/-- Shared WHERE-clause assembly (§4.2): zero entries give no clause, one
entry is rendered bare, two or more are each parenthesized and joined by
the literal `" AND "`. -/
def make_wheres : List String → String
  | [] => ""
  | [w] => " WHERE " ++ w
  | ws => " WHERE " ++ String.intercalate " AND " (ws.map (fun w => "(" ++ w ++ ")"))

namespace SqlBuilder

/-- Rendered field list of a SELECT: defaults to `*` when empty (§4.2). -/
def make_fields (s : SqlBuilder) : String :=
  if s.field_list = [] then "*" else String.intercalate ", " s.field_list

/-- Rendered join fragments, preceded by a space when present. -/
def make_joins (s : SqlBuilder) : String :=
  if s.join_list = [] then "" else " " ++ String.intercalate " " s.join_list

/-- Rendered GROUP BY clause with its nested HAVING (§4.2 grammar). -/
def make_group (s : SqlBuilder) : String :=
  if s.group_list = [] then ""
  else
    " GROUP BY " ++ String.intercalate ", " s.group_list ++
      (match s.having_opt with
       | some h => " HAVING " ++ h
       | none => "")

/-- Rendered ORDER BY clause. It is omitted whenever a union fragment was
accumulated; pinned by `test_find_cheap_or_harry_potter`
(src/src/lib.rs:2434-2472), where the outer builder's `order_desc` does
not appear in the output. -/
def make_order (s : SqlBuilder) : String :=
  if s.order_list = [] ∨ s.unions ≠ "" then ""
  else " ORDER BY " ++ String.intercalate ", " s.order_list

/-- Rendered LIMIT clause. -/
def make_limit (s : SqlBuilder) : String :=
  match s.limit_opt with
  | some l => " LIMIT " ++ l
  | none => ""

/-- Rendered OFFSET clause. -/
def make_offset (s : SqlBuilder) : String :=
  match s.offset_opt with
  | some o => " OFFSET " ++ o
  | none => ""

/-- Everything of a SELECT fragment before the WHERE clause (§4.2 grammar:
`SELECT [DISTINCT] <fields|*> FROM <table>[ <joins>][ GROUP BY ...]`). -/
def select_head (s : SqlBuilder) : String :=
  "SELECT" ++ (if s.is_distinct then " DISTINCT" else "") ++ " " ++ s.make_fields ++
    " FROM " ++ s.table ++ s.make_joins ++ s.make_group

/-- Everything of a SELECT fragment after the WHERE clause: the union
fragments, then ORDER BY, LIMIT and OFFSET. -/
def select_tail (s : SqlBuilder) : String :=
  s.unions ++ s.make_order ++ s.make_limit ++ s.make_offset

/-- The bare SELECT fragment (no trailing semicolon). -/
def query_core (s : SqlBuilder) : String :=
  s.select_head ++ make_wheres s.wheres ++ s.select_tail

/-- The SELECT fragment with its leading `SELECT ` stripped: `query_core`
is always `"SELECT " ++ query_core_rest` (used for the Insert…SELECT
round trip). -/
def query_core_rest (s : SqlBuilder) : String :=
  (if s.is_distinct then "DISTINCT " else "") ++ s.make_fields ++
    " FROM " ++ s.table ++ s.make_joins ++ s.make_group ++
    make_wheres s.wheres ++ s.select_tail

/-- Render the query fragment (src/src/lib.rs:2091): the bare SELECT text,
checked for a table name. -/
def query (s : SqlBuilder) : Except SqlError String :=
  if s.table = "" then .error .noTableName else .ok s.query_core

/-- Render as a parenthesized subquery (src/src/lib.rs:2030). -/
def subquery (s : SqlBuilder) : Except SqlError String :=
  (s.query).map (fun q => "(" ++ q ++ ")")

/-- Render as a named subquery (src/src/lib.rs:2061). -/
def subquery_as (s : SqlBuilder) (name : String) : Except SqlError String :=
  (s.query).map (fun q => "(" ++ q ++ ") AS " ++ name)

/-- Render the fields-only pseudo-select fragment (src/src/lib.rs:2111). -/
def query_values (s : SqlBuilder) : Except SqlError String :=
  .ok ("SELECT " ++ String.intercalate ", " s.field_list)

/-- Render the complete SQL command (src/src/lib.rs:1999), dispatching on
the statement kind (§4.2) with the structural checks of §7. -/
def sql (s : SqlBuilder) : Except SqlError String :=
  match s.smt with
  | .select_from =>
      if s.table = "" then .error .noTableName
      else .ok (s.query_core ++ ";")
  | .select_values =>
      .ok ("SELECT " ++ String.intercalate ", " s.field_list ++ ";")
  | .insert_into =>
      if s.table = "" then .error .noTableName
      else
        match s.select_src with
        | some q =>
            .ok ("INSERT INTO " ++ s.table ++ " (" ++
              String.intercalate ", " s.field_list ++ ") " ++ q ++ ";")
        | none =>
            if s.values_list = [] then .error .noValues
            else
              .ok ("INSERT INTO " ++ s.table ++ " (" ++
                String.intercalate ", " s.field_list ++ ") VALUES " ++
                String.intercalate ", " s.values_list ++ ";")
  | .update_table =>
      if s.table = "" then .error .noTableName
      else if s.set_list = [] then .error .noSetFields
      else
        .ok ("UPDATE " ++ s.table ++ " SET " ++ String.intercalate ", " s.set_list ++
          make_wheres s.wheres ++ ";")
  | .delete_from =>
      if s.table = "" then .error .noTableName
      else .ok ("DELETE FROM " ++ s.table ++ make_wheres s.wheres ++ ";")

/-- Error outcome of `sql`, if any: `none` when rendering succeeds. -/
def sqlErr (s : SqlBuilder) : Option SqlError :=
  match s.sql with
  | .error e => some e
  | .ok _ => none

end SqlBuilder

/-- The render operations of the public API (src/src/lib.rs:1999-2113). -/
inductive Renderer
  | sql
  | query
  | subquery
  | subquery_as (name : String)
  | query_values

/-- Dispatch a render operation on a builder state. -/
def renderWith : Renderer → SqlBuilder → Except SqlError String
  | .sql, s => s.sql
  | .query, s => s.query
  | .subquery, s => s.subquery
  | .subquery_as n, s => s.subquery_as n
  | .query_values, s => s.query_values

/-- One step of a fluent call trace: a clause accumulator (an arbitrary
state mutation) or a render call. -/
inductive RenderOp
  | acc (f : SqlBuilder → SqlBuilder)
  | render (r : Renderer)

/-- Interpret a call trace: thread the builder state left to right and
collect every rendered result in order. -/
def runOps : SqlBuilder → List RenderOp → SqlBuilder × List (Except SqlError String)
  | s, [] => (s, [])
  | s, .acc f :: ops => runOps (f s) ops
  | s, .render r :: ops => ((runOps s ops).1, renderWith r s :: (runOps s ops).2)

example :
    (SqlBuilder.select_from "books").sql = .ok "SELECT * FROM books;" := rfl

example :
    (((SqlBuilder.select_from "books").field "title").field "price").sql
      = .ok "SELECT title, price FROM books;" := rfl

example :
    ((((SqlBuilder.select_from "books").field "title").and_where "price > 100").and_where
        "price < 200").sql
      = .ok "SELECT title FROM books WHERE (price > 100) AND (price < 200);" := rfl

example :
    (((SqlBuilder.select_from "books").and_where "price < 2").or_where "price > 1000").sql
      = .ok "SELECT * FROM books WHERE price < 2 OR price > 1000;" := rfl

example :
    (SqlBuilder.update_table "books").sql = .error .noSetFields := rfl

example :
    (SqlBuilder.delete_from "").sql = .error .noTableName := rfl

example :
    ((SqlBuilder.update_table "books").set "price" "price + 10").sql
      = .ok "UPDATE books SET price = price + 10;" := rfl

example :
    esc ("O" ++ squoteS ++ "Brien") = "O" ++ squoteS ++ squoteS ++ "Brien" := rfl

example :
    ((SqlBuilder.select_from "books").distinct.field "price").sql
      = .ok "SELECT DISTINCT price FROM books;" := rfl

example :
    (((((SqlBuilder.select_from "books").field "price").group_by "price").having
        "price > 100").order_desc "cnt").sql
      = .ok "SELECT price FROM books GROUP BY price HAVING price > 100 ORDER BY cnt DESC;" := rfl

example :
    (((SqlBuilder.select_from "books").field "price").and_where_like_left "title" "Harry").sql
      = .ok ("SELECT price FROM books WHERE title LIKE " ++ squoteS ++ "Harry%" ++
          squoteS ++ ";") := rfl

example :
    ((((SqlBuilder.select_from "books").field "title").and_where_not_like_any "title"
        ("Alice" ++ squoteS ++ "s")).sql)
      = .ok ("SELECT title FROM books WHERE title NOT LIKE " ++ squoteS ++ "%Alice" ++
          squoteS ++ squoteS ++ "s%" ++ squoteS ++ ";") := rfl

example :
    (((((SqlBuilder.select_from "books").field "title").field "price").and_where
        "price < 100").order_asc "title").query
      = .ok "SELECT title, price FROM books WHERE price < 100 ORDER BY title" := rfl

example :
    ((((((SqlBuilder.select_from "books").field "title").field "price").and_where
        "price > 500").order_desc "price").union
          "SELECT title, price FROM books WHERE price < 100 ORDER BY title").sql
      = .ok ("SELECT title, price FROM books WHERE price > 500 UNION " ++
          "SELECT title, price FROM books WHERE price < 100 ORDER BY title;") := rfl

example :
    (SqlBuilder.select_values ["10", quote "100"]).sql
      = .ok ("SELECT 10, " ++ squoteS ++ "100" ++ squoteS ++ ";") := rfl

example :
    (SqlBuilder.select_values ["10", quote "100"]).query_values
      = .ok ("SELECT 10, " ++ squoteS ++ "100" ++ squoteS) := rfl

example :
    ((((((SqlBuilder.select_from "books").field "title").field "price").and_where
        "price > 500").order_desc "price").union_all
          ("SELECT " ++ squoteS ++ "The Great Gatsby" ++ squoteS ++ ", 124")).sql
      = .ok ("SELECT title, price FROM books WHERE price > 500 UNION ALL SELECT " ++
          squoteS ++ "The Great Gatsby" ++ squoteS ++ ", 124;") := rfl

example :
    ((((SqlBuilder.select_from "books").field "title").order_asc "title").offset "2").sql
      = .ok "SELECT title FROM books ORDER BY title OFFSET 2;" := rfl

example :
    (((((SqlBuilder.select_from "books").field "title").order_asc "title").limit
        "3").offset "2").sql
      = .ok "SELECT title FROM books ORDER BY title LIMIT 3 OFFSET 2;" := rfl

example :
    ((((SqlBuilder.insert_into "books").field "title").field "price").values
        [quote "A", "150"]).sql
      = .ok ("INSERT INTO books (title, price) VALUES (" ++ squoteS ++ "A" ++ squoteS ++
          ", 150);") := rfl

example :
    ((((SqlBuilder.insert_into "books").field "title").field "price").select
        "SELECT title, preliminary_price * 2 FROM warehouse").sql
      = .ok "INSERT INTO books (title, price) SELECT title, preliminary_price * 2 FROM warehouse;" := rfl

example :
    ((SqlBuilder.select_from "books").field "cat").subquery
      = .ok "(SELECT cat FROM books)" := rfl

example :
    (((SqlBuilder.select_from "books").field "cat").subquery_as "category")
      = .ok "(SELECT cat FROM books) AS category" := rfl

example :
    (((SqlBuilder.update_table "books").set_str "comment"
        ("Don" ++ squoteS ++ "t distribute!")).and_where_le "price" "100").sql
      = .ok ("UPDATE books SET comment = " ++ squoteS ++ "Don" ++ squoteS ++ squoteS ++
          "t distribute!" ++ squoteS ++ " WHERE price <= 100;") := rfl

example :
    (((((SqlBuilder.select_from "books AS b").field "b.title").field "s.total").join
        "shops AS s").on_join "b.id = s.book").sql
      = .ok "SELECT b.title, s.total FROM books AS b JOIN shops AS s ON b.id = s.book;" := rfl

example :
    (((((((SqlBuilder.select_from "books").field "title").field "price").and_where
        "price < 2").or_where "price > 1000").or_where_ne "price"
          "100").or_where_is_null "title").sql
      = .ok ("SELECT title, price FROM books WHERE price < 2 OR price > 1000 OR " ++
          "price <> 100 OR title IS NULL;") := rfl

example :
    (((SqlBuilder.select_from "books").field "title").or_where_is_not_null "title").sql
      = .ok "SELECT title FROM books WHERE title IS NOT NULL;" := rfl

example :
    (SqlBuilder.insert_into "books").sql = .error .noValues := rfl

example :
    (SqlBuilder.insert_into "").sql = .error .noTableName := rfl

example :
    (SqlBuilder.update_table "").sql = .error .noTableName := rfl

example :
    (SqlBuilder.select_from "").sql = .error .noTableName := rfl

/-! Helper lemmas shared by the claim theorems. -/

lemma append_lit_fold (a b c : String) (h : a ++ b = c) (X : String) :
    a ++ (b ++ X) = c ++ X := by
  rw [← String.append_assoc, h]

lemma append_ne_empty_left (a b : String) (h : a ≠ "") : a ++ b ≠ "" := by
  intro hc
  apply h
  have hd := congrArg String.data hc
  simp only [String.data_append] at hd
  exact String.ext (List.append_eq_nil.mp hd).1

lemma foldl_and_where_wheres (s : SqlBuilder) (cs : List String) :
    (cs.foldl SqlBuilder.and_where s).wheres = s.wheres ++ cs := by
  induction cs generalizing s with
  | nil => simp
  | cons c cs ih =>
      simp [List.foldl_cons, ih, SqlBuilder.and_where]

lemma orLast_concat (ws : List String) (w c : String) :
    SqlBuilder.orLast (ws ++ [w]) c = ws ++ [w ++ " OR " ++ c] := by
  induction ws with
  | nil => rfl
  | cons x xs ih =>
      cases xs with
      | nil => rfl
      | cons y ys =>
          have h1 : SqlBuilder.orLast ((x :: y :: ys) ++ [w]) c
              = x :: SqlBuilder.orLast ((y :: ys) ++ [w]) c := rfl
          rw [h1, ih]
          rfl

lemma or_where_concat (s : SqlBuilder) (ws : List String) (w c : String)
    (h : s.wheres = ws ++ [w]) :
    (s.or_where c).wheres = ws ++ [w ++ " OR " ++ c] := by
  simp [SqlBuilder.or_where, h, orLast_concat]

lemma foldl_or_where_wheres (cs : List String) :
    ∀ (s : SqlBuilder) (L : List String) (a : String), s.wheres = L ++ [a] →
      (cs.foldl SqlBuilder.or_where s).wheres
        = L ++ [cs.foldl (fun x c => x ++ " OR " ++ c) a] := by
  induction cs with
  | nil =>
      intro s L a h
      simpa using h
  | cons c cs ih =>
      intro s L a h
      have h1 : (s.or_where c).wheres = L ++ [a ++ " OR " ++ c] :=
        or_where_concat s L a c h
      simpa using ih (s.or_where c) L (a ++ " OR " ++ c) h1

lemma or_where_nil (s : SqlBuilder) (c : String) (h : s.wheres = []) :
    s.or_where c = s.and_where c := by
  simp [SqlBuilder.or_where, SqlBuilder.and_where, h, SqlBuilder.orLast]

lemma sql_select_eq (s : SqlBuilder) (h : s.smt = .select_from) (ht : s.table ≠ "") :
    s.sql = .ok (s.query_core ++ ";") := by
  obtain ⟨smt, table, d, fl, jl, sl, vl, ss, gl, ho, whs, un, ol, lo, oo⟩ := s
  simp only at h
  subst h
  simp [SqlBuilder.sql, ht]

lemma query_eq (s : SqlBuilder) (ht : s.table ≠ "") :
    s.query = .ok s.query_core := by
  simp [SqlBuilder.query, ht]

lemma sql_update_eq (s : SqlBuilder) (h : s.smt = .update_table) (ht : s.table ≠ "")
    (hs : s.set_list ≠ []) :
    s.sql = .ok ("UPDATE " ++ s.table ++ " SET " ++ String.intercalate ", " s.set_list ++
      make_wheres s.wheres ++ ";") := by
  obtain ⟨smt, table, d, fl, jl, sl, vl, ss, gl, ho, whs, un, ol, lo, oo⟩ := s
  simp only at h hs ht
  subst h
  simp [SqlBuilder.sql, ht, hs]

lemma sql_delete_eq (s : SqlBuilder) (h : s.smt = .delete_from) (ht : s.table ≠ "") :
    s.sql = .ok ("DELETE FROM " ++ s.table ++ make_wheres s.wheres ++ ";") := by
  obtain ⟨smt, table, d, fl, jl, sl, vl, ss, gl, ho, whs, un, ol, lo, oo⟩ := s
  simp only at h ht
  subst h
  simp [SqlBuilder.sql, ht]

lemma sql_insert_values_eq (s : SqlBuilder) (h : s.smt = .insert_into) (ht : s.table ≠ "")
    (hsel : s.select_src = none) (hv : s.values_list ≠ []) :
    s.sql = .ok ("INSERT INTO " ++ s.table ++ " (" ++
      String.intercalate ", " s.field_list ++ ") VALUES " ++
      String.intercalate ", " s.values_list ++ ";") := by
  obtain ⟨smt, table, d, fl, jl, sl, vl, ss, gl, ho, whs, un, ol, lo, oo⟩ := s
  simp only at h ht hsel hv
  subst h
  subst hsel
  simp [SqlBuilder.sql, ht, hv]

lemma sql_insert_select_eq (s : SqlBuilder) (q : String) (h : s.smt = .insert_into)
    (ht : s.table ≠ "") (hsel : s.select_src = some q) :
    s.sql = .ok ("INSERT INTO " ++ s.table ++ " (" ++
      String.intercalate ", " s.field_list ++ ") " ++ q ++ ";") := by
  obtain ⟨smt, table, d, fl, jl, sl, vl, ss, gl, ho, whs, un, ol, lo, oo⟩ := s
  simp only at h ht hsel
  subst h
  subst hsel
  simp [SqlBuilder.sql, ht]

lemma escChars_eq_flatMap (l : List Char) :
    escChars l = l.flatMap (fun c => if c = squote then [squote, squote] else [c]) := by
  induction l with
  | nil => rfl
  | cons c cs ih =>
      by_cases h : c = squote <;> simp [escChars, h, ih]

lemma escChars_of_no_squote (l : List Char) (h : ∀ c ∈ l, c ≠ squote) :
    escChars l = l := by
  induction l with
  | nil => rfl
  | cons c cs ih =>
      have hc : c ≠ squote := h c (by simp)
      simp [escChars, hc, ih (fun x hx => h x (by simp [hx]))]

/-! The claim theorems. -/

/-- C1: for every builder, a sequence of `and_where` calls appends its
conditions to `wheres` in call order, and the rendered WHERE clause is
absent for zero entries, is `WHERE <c1>` with the condition bare for one
entry, and for two or more is ` WHERE (<c1>) AND (<c2>) ...` with each
top-level entry parenthesized and joined by the literal `" AND "` — for
every statement kind that renders a WHERE clause (Select, Update,
Delete). -/
theorem and_where_where_clause :
    (∀ (s : SqlBuilder) (cs : List String),
        (cs.foldl SqlBuilder.and_where s).wheres = s.wheres ++ cs) ∧
    make_wheres [] = "" ∧
    (∀ c, make_wheres [c] = " WHERE " ++ c) ∧
    (∀ (c1 c2 : String) (cs : List String),
        make_wheres (c1 :: c2 :: cs)
          = " WHERE " ++ String.intercalate " AND "
              ((c1 :: c2 :: cs).map (fun c => "(" ++ c ++ ")"))) ∧
    (∀ s : SqlBuilder, s.smt = .select_from → s.table ≠ "" →
        s.sql = .ok (s.select_head ++ make_wheres s.wheres ++ s.select_tail ++ ";")) ∧
    (∀ s : SqlBuilder, s.smt = .update_table → s.table ≠ "" → s.set_list ≠ [] →
        s.sql = .ok ("UPDATE " ++ s.table ++ " SET " ++
          String.intercalate ", " s.set_list ++ make_wheres s.wheres ++ ";")) ∧
    (∀ s : SqlBuilder, s.smt = .delete_from → s.table ≠ "" →
        s.sql = .ok ("DELETE FROM " ++ s.table ++ make_wheres s.wheres ++ ";")) := by
  refine ⟨foldl_and_where_wheres, rfl, fun c => rfl, fun c1 c2 cs => rfl, ?_, ?_, ?_⟩
  · intro s h ht
    exact sql_select_eq s h ht
  · exact sql_update_eq
  · exact sql_delete_eq

/-- C1 witness: the Select clause of the theorem applied to a builder with
two accumulated conditions, giving the parenthesized AND-joined form. -/
theorem and_where_where_clause_witness :
    ((((SqlBuilder.select_from "books").field "title").and_where "price > 100").and_where
        "price < 200").sql
      = .ok "SELECT title FROM books WHERE (price > 100) AND (price < 200);" := by
  have h := and_where_where_clause.2.2.2.2.1
    ((((SqlBuilder.select_from "books").field "title").and_where "price > 100").and_where
      "price < 200") rfl (by decide)
  exact h.trans (by rfl)

/-- C2: every `or_where*` call extends the most recently pushed WHERE
entry, joined by the literal `OR `, and never creates a new top-level
AND-joined entry; an `and_where` of `c0` followed by a run of `or_where`
calls `c1 ... ck` yields the single top-level entry
`c0 OR c1 OR ... OR ck`. Every `or_where_*` variant is `or_where` of its
built condition. -/
theorem or_where_extends_last :
    (∀ (s : SqlBuilder) (ws : List String) (w c : String), s.wheres = ws ++ [w] →
        (s.or_where c).wheres = ws ++ [w ++ " OR " ++ c]) ∧
    (∀ (s : SqlBuilder) (c0 : String) (cs : List String),
        (cs.foldl SqlBuilder.or_where (s.and_where c0)).wheres
          = s.wheres ++ [cs.foldl (fun a c => a ++ " OR " ++ c) c0]) ∧
    (∀ (s : SqlBuilder) (f v : String),
        s.or_where_eq f v = s.or_where (SqlBuilder.condEq f v) ∧
        s.or_where_ne f v = s.or_where (SqlBuilder.condNe f v) ∧
        s.or_where_gt f v = s.or_where (SqlBuilder.condGt f v) ∧
        s.or_where_ge f v = s.or_where (SqlBuilder.condGe f v) ∧
        s.or_where_lt f v = s.or_where (SqlBuilder.condLt f v) ∧
        s.or_where_le f v = s.or_where (SqlBuilder.condLe f v) ∧
        s.or_where_like f v = s.or_where (SqlBuilder.condLike f v) ∧
        s.or_where_like_right f v = s.or_where (SqlBuilder.condLikeRight f v) ∧
        s.or_where_like_left f v = s.or_where (SqlBuilder.condLikeLeft f v) ∧
        s.or_where_like_any f v = s.or_where (SqlBuilder.condLikeAny f v) ∧
        s.or_where_not_like f v = s.or_where (SqlBuilder.condNotLike f v) ∧
        s.or_where_not_like_right f v = s.or_where (SqlBuilder.condNotLikeRight f v) ∧
        s.or_where_not_like_left f v = s.or_where (SqlBuilder.condNotLikeLeft f v) ∧
        s.or_where_not_like_any f v = s.or_where (SqlBuilder.condNotLikeAny f v)) ∧
    (∀ (s : SqlBuilder) (f : String),
        s.or_where_is_null f = s.or_where (SqlBuilder.condIsNull f) ∧
        s.or_where_is_not_null f = s.or_where (SqlBuilder.condIsNotNull f)) := by
  refine ⟨fun s ws w c h => or_where_concat s ws w c h, ?_, ?_, ?_⟩
  · intro s c0 cs
    exact foldl_or_where_wheres cs (s.and_where c0) s.wheres c0 rfl
  · intro s f v
    exact ⟨rfl, rfl, rfl, rfl, rfl, rfl, rfl, rfl, rfl, rfl, rfl, rfl, rfl, rfl⟩
  · intro s f
    exact ⟨rfl, rfl⟩

/-- C2 witness: the theorem applied to a builder whose last entry is an
OR-chain, extending it once more instead of creating a second entry. -/
theorem or_where_extends_last_witness :
    ((((SqlBuilder.select_from "books").and_where "price < 2").or_where
        "price > 1000").or_where "price = 0").wheres
      = ["price < 2 OR price > 1000 OR price = 0"] := by
  have h := or_where_extends_last.1
    (((SqlBuilder.select_from "books").and_where "price < 2").or_where "price > 1000")
    [] "price < 2 OR price > 1000" "price = 0" (by rfl)
  exact h.trans (by rfl)

/-- C3: `sql` returns an error exactly in the structural cases of §7,
checked at render time: an empty table name gives the no-table-name error
for Select, Insert, Update and Delete; an Insert with no value-tuples and
no select-source gives the no-values error; an Update with no SET
assignments gives the no-set-fields error; nothing else errors. -/
theorem sql_error_characterization :
    ∀ s : SqlBuilder,
      s.sqlErr =
        match s.smt with
        | .select_from => if s.table = "" then some .noTableName else none
        | .select_values => none
        | .insert_into =>
            if s.table = "" then some .noTableName
            else if s.select_src = none ∧ s.values_list = [] then some .noValues
            else none
        | .update_table =>
            if s.table = "" then some .noTableName
            else if s.set_list = [] then some .noSetFields
            else none
        | .delete_from => if s.table = "" then some .noTableName else none := by
  intro s
  obtain ⟨smt, table, d, fl, jl, sl, vl, ss, gl, ho, whs, un, ol, lo, oo⟩ := s
  cases smt
  · by_cases h : table = "" <;> simp [SqlBuilder.sqlErr, SqlBuilder.sql, h]
  · simp [SqlBuilder.sqlErr, SqlBuilder.sql]
  · by_cases h : table = ""
    · simp [SqlBuilder.sqlErr, SqlBuilder.sql, h]
    · cases ss with
      | some q => simp [SqlBuilder.sqlErr, SqlBuilder.sql, h]
      | none =>
          by_cases hv : vl = [] <;> simp [SqlBuilder.sqlErr, SqlBuilder.sql, h, hv]
  · by_cases h : table = ""
    · simp [SqlBuilder.sqlErr, SqlBuilder.sql, h]
    · by_cases hs : sl = [] <;> simp [SqlBuilder.sqlErr, SqlBuilder.sql, h, hs]
  · by_cases h : table = "" <;> simp [SqlBuilder.sqlErr, SqlBuilder.sql, h]

/-- C4: the escaping utilities are pure string functions: `esc` doubles
every single-quote character and alters no other character — in
particular the O-apostrophe-Brien example doubles just the quote — and
`quote s` is exactly a single quote, then `esc s`, then a single quote. -/
theorem esc_quote_spec :
    (∀ s : String,
        (esc s).data = s.data.flatMap
          (fun c => if c = squote then [squote, squote] else [c])) ∧
    esc ("O" ++ squoteS ++ "Brien") = "O" ++ squoteS ++ squoteS ++ "Brien" ∧
    (∀ s : String, quote s = squoteS ++ esc s ++ squoteS) ∧
    (∀ s : String, (∀ c ∈ s.data, c ≠ squote) → esc s = s) := by
  refine ⟨fun s => escChars_eq_flatMap s.data, rfl, fun s => rfl, ?_⟩
  intro s h
  obtain ⟨d⟩ := s
  show String.mk (escChars d) = String.mk d
  rw [escChars_of_no_squote d h]

/-- C4 witness: the no-quote clause of the theorem applied to a concrete
quote-free string, which `esc` leaves unchanged. -/
theorem esc_quote_spec_witness : esc "Hello" = "Hello" :=
  esc_quote_spec.2.2.2 "Hello" (by decide)

/-- C5: rendering is pure and deterministic: over the call-trace
interpreter, a render step leaves the builder state unchanged, and two
consecutive calls of the same renderer on an unmutated state yield two
identical result strings, with the rest of the trace unaffected. -/
theorem rendering_pure :
    ∀ (s : SqlBuilder) (r : Renderer) (ops : List RenderOp),
      (runOps s [RenderOp.render r]).1 = s ∧
      runOps s (RenderOp.render r :: RenderOp.render r :: ops)
        = ((runOps s ops).1, renderWith r s :: renderWith r s :: (runOps s ops).2) :=
  fun _ _ _ => ⟨rfl, rfl⟩

/-- C6: a Select with zero accumulated fields renders its field list as
`*`; the default is Select-only — an Insert renders an empty field list
as empty parens (never `*`), and Update and Delete ignore the field list
entirely. -/
theorem select_star_default :
    (∀ s : SqlBuilder, s.smt = .select_from → s.field_list = [] → s.table ≠ "" →
        s.sql = .ok ("SELECT" ++ (if s.is_distinct then " DISTINCT" else "") ++
          " * FROM " ++ s.table ++ s.make_joins ++ s.make_group ++
          make_wheres s.wheres ++ s.select_tail ++ ";")) ∧
    (∀ s : SqlBuilder, s.smt = .insert_into → s.table ≠ "" → s.field_list = [] →
        s.select_src = none → s.values_list ≠ [] →
        s.sql = .ok ("INSERT INTO " ++ s.table ++ " () VALUES " ++
          String.intercalate ", " s.values_list ++ ";")) ∧
    (∀ (s : SqlBuilder) (fs : List String), s.smt = .update_table →
        ({ s with field_list := fs } : SqlBuilder).sql = s.sql) ∧
    (∀ (s : SqlBuilder) (fs : List String), s.smt = .delete_from →
        ({ s with field_list := fs } : SqlBuilder).sql = s.sql) := by
  refine ⟨?_, ?_, ?_, ?_⟩
  · intro s h hf ht
    obtain ⟨smt, table, d, fl, jl, sl, vl, ss, gl, ho, whs, un, ol, lo, oo⟩ := s
    simp only at h hf ht
    subst h
    subst hf
    rw [sql_select_eq _ rfl ht]
    cases d <;> rfl
  · intro s h ht hf hsel hv
    obtain ⟨smt, table, d, fl, jl, sl, vl, ss, gl, ho, whs, un, ol, lo, oo⟩ := s
    simp only at h hf hsel ht hv
    subst h
    subst hf
    subst hsel
    rw [sql_insert_values_eq _ rfl ht rfl hv]
    have e : ∀ x : String,
        x ++ " (" ++ String.intercalate ", " ([] : List String) ++ ") VALUES "
          = x ++ " () VALUES " := by
      intro x
      rw [show String.intercalate ", " ([] : List String) = "" from rfl,
        String.append_empty, String.append_assoc]
      exact congrArg (fun y => x ++ y) rfl
    rw [e]
  · intro s fs h
    obtain ⟨smt, table, d, fl, jl, sl, vl, ss, gl, ho, whs, un, ol, lo, oo⟩ := s
    simp only at h
    subst h
    rfl
  · intro s fs h
    obtain ⟨smt, table, d, fl, jl, sl, vl, ss, gl, ho, whs, un, ol, lo, oo⟩ := s
    simp only at h
    subst h
    rfl

/-- C6 witness: the Select clause of the theorem applied to a bare
`select_from`, rendering the `*` default. -/
theorem select_star_default_witness :
    (SqlBuilder.select_from "books").sql = .ok "SELECT * FROM books;" := by
  have h := select_star_default.1 (SqlBuilder.select_from "books") rfl rfl (by decide)
  exact h.trans (by rfl)

lemma make_order_empty (s : SqlBuilder) (hu : s.unions ≠ "") : s.make_order = "" := by
  simp [SqlBuilder.make_order, hu]

lemma query_core_eq_select_rest (s : SqlBuilder) :
    s.query_core = "SELECT " ++ s.query_core_rest := by
  obtain ⟨smt, table, d, fl, jl, sl, vl, ss, gl, ho, whs, un, ol, lo, oo⟩ := s
  cases d <;>
    (simp only [SqlBuilder.query_core, SqlBuilder.query_core_rest, SqlBuilder.select_head,
      ← String.append_assoc]
     rfl)

/-- C7: round-trip of fragments: a `query()` render installed via
`select` into an Insert is reproduced verbatim — the output is exactly
`INSERT INTO t (f) ` followed by the fragment, equivalently
`INSERT INTO t (f) SELECT ` followed by the fragment minus its leading
`SELECT `; a fragment installed via `union` is reproduced verbatim after
` UNION ` inside the outer statement. -/
theorem insert_select_union_roundtrip :
    (∀ t f q : String, t ≠ "" →
        (((SqlBuilder.insert_into t).field f).select q).sql
          = .ok ("INSERT INTO " ++ t ++ " (" ++ f ++ ") " ++ q ++ ";")) ∧
    (∀ b : SqlBuilder, b.smt = .select_from → b.table ≠ "" →
        b.query = .ok ("SELECT " ++ b.query_core_rest)) ∧
    (∀ (t f : String) (b : SqlBuilder), t ≠ "" → b.smt = .select_from → b.table ≠ "" →
        (((SqlBuilder.insert_into t).field f).select b.query_core).sql
          = .ok ("INSERT INTO " ++ t ++ " (" ++ f ++ ") SELECT " ++
              b.query_core_rest ++ ";")) ∧
    (∀ (s : SqlBuilder) (q : String), s.smt = .select_from → s.table ≠ "" →
        s.unions = "" →
        (s.union q).sql
          = .ok (s.select_head ++ make_wheres s.wheres ++ " UNION " ++ q ++
              s.make_limit ++ s.make_offset ++ ";")) := by
  refine ⟨?_, ?_, ?_, ?_⟩
  · intro t f q ht
    rw [sql_insert_select_eq _ q rfl ht rfl]
    rfl
  · intro b h ht
    rw [query_eq b ht, query_core_eq_select_rest]
  · intro t f b ht hb hbt
    rw [sql_insert_select_eq _ _ rfl ht rfl, query_core_eq_select_rest]
    simp only [String.append_assoc]
    rw [append_lit_fold ") " "SELECT " ") SELECT " rfl]
    rfl
  · intro s q h ht hu
    obtain ⟨smt, table, d, fl, jl, sl, vl, ss, gl, ho, whs, un, ol, lo, oo⟩ := s
    simp only at h ht hu
    subst h
    subst hu
    rw [sql_select_eq _ rfl ht]
    have hne : (("" : String) ++ " UNION " ++ q) ≠ "" :=
      append_ne_empty_left _ _ (by decide)
    simp only [SqlBuilder.query_core, SqlBuilder.select_tail, SqlBuilder.union]
    rw [make_order_empty _ hne]
    simp only [String.append_empty, String.empty_append, String.append_assoc]
    rfl
/-- C7 witness: the Insert clause of the theorem applied to a concrete
fragment, reproducing it verbatim after the field list. -/
theorem insert_select_union_roundtrip_witness :
    (((SqlBuilder.insert_into "books").field "title").select
        "SELECT title FROM warehouse").sql
      = .ok "INSERT INTO books (title) SELECT title FROM warehouse;" := by
  have h := insert_select_union_roundtrip.1 "books" "title"
    "SELECT title FROM warehouse" (by decide)
  exact h.trans (by rfl)

/-- C8: an `or_where*` call on a builder whose `wheres` list is empty
behaves exactly like the corresponding `and_where*` call: it pushes the
bare condition as the first entry (no failure, no no-op), rendering as
`WHERE <cond>`, and further `or_where` calls extend it into an OR-chain. -/
theorem or_where_on_empty :
    (∀ (s : SqlBuilder) (c : String), s.wheres = [] → s.or_where c = s.and_where c) ∧
    (∀ (s : SqlBuilder) (c : String), s.wheres = [] → (s.or_where c).wheres = [c]) ∧
    (∀ (s : SqlBuilder) (c : String) (cs : List String), s.wheres = [] →
        (cs.foldl SqlBuilder.or_where (s.or_where c)).wheres
          = [cs.foldl (fun a x => a ++ " OR " ++ x) c]) ∧
    (∀ (s : SqlBuilder) (f v : String), s.wheres = [] →
        s.or_where_eq f v = s.and_where_eq f v ∧
        s.or_where_ne f v = s.and_where_ne f v ∧
        s.or_where_gt f v = s.and_where_gt f v ∧
        s.or_where_ge f v = s.and_where_ge f v ∧
        s.or_where_lt f v = s.and_where_lt f v ∧
        s.or_where_le f v = s.and_where_le f v ∧
        s.or_where_like f v = s.and_where_like f v ∧
        s.or_where_like_right f v = s.and_where_like_right f v ∧
        s.or_where_like_left f v = s.and_where_like_left f v ∧
        s.or_where_like_any f v = s.and_where_like_any f v ∧
        s.or_where_not_like f v = s.and_where_not_like f v ∧
        s.or_where_not_like_right f v = s.and_where_not_like_right f v ∧
        s.or_where_not_like_left f v = s.and_where_not_like_left f v ∧
        s.or_where_not_like_any f v = s.and_where_not_like_any f v) ∧
    (∀ (s : SqlBuilder) (f : String), s.wheres = [] →
        s.or_where_is_null f = s.and_where_is_null f ∧
        s.or_where_is_not_null f = s.and_where_is_not_null f) ∧
    (∀ (s : SqlBuilder) (c : String), s.smt = .select_from → s.table ≠ "" →
        s.wheres = [] →
        (s.or_where c).sql
          = .ok (s.select_head ++ " WHERE " ++ c ++ s.select_tail ++ ";")) := by
  refine ⟨or_where_nil, ?_, ?_, ?_, ?_, ?_⟩
  · intro s c h
    simp [SqlBuilder.or_where, h, SqlBuilder.orLast]
  · intro s c cs h
    have h1 : (s.or_where c).wheres = [] ++ [c] := by
      simp [SqlBuilder.or_where, h, SqlBuilder.orLast]
    simpa using foldl_or_where_wheres cs (s.or_where c) [] c h1
  · intro s f v h
    have g := or_where_nil s
    exact ⟨g _ h, g _ h, g _ h, g _ h, g _ h, g _ h, g _ h, g _ h, g _ h, g _ h,
      g _ h, g _ h, g _ h, g _ h⟩
  · intro s f h
    have g := or_where_nil s
    exact ⟨g _ h, g _ h⟩
  · intro s c hsmt ht h
    rw [or_where_nil s c h, sql_select_eq (s.and_where c) hsmt ht]
    have hq : (s.and_where c).query_core
        = s.select_head ++ " WHERE " ++ c ++ s.select_tail := by
      show s.select_head ++ make_wheres (s.wheres ++ [c]) ++ s.select_tail = _
      rw [h]
      show s.select_head ++ (" WHERE " ++ c) ++ s.select_tail = _
      rw [← String.append_assoc]
    rw [hq]

/-- C8 witness: the render clause of the theorem applied to a builder
whose first WHERE call is an `or_where*` variant. -/
theorem or_where_on_empty_witness :
    (((SqlBuilder.select_from "books").field "title").or_where_is_not_null "title").sql
      = .ok "SELECT title FROM books WHERE title IS NOT NULL;" := by
  have h := or_where_on_empty.2.2.2.2.2 ((SqlBuilder.select_from "books").field "title")
    (SqlBuilder.condIsNotNull "title") rfl (by decide) rfl
  exact h.trans (by rfl)

/-- C9: when at least one union fragment is accumulated, `sql` omits the
builder's own ORDER BY clause entirely (the accumulated `order_by`
entries do not influence the output), and the rendered statement is the
primary query followed by the union fragments verbatim, then the
terminating semicolon. `union`/`union_all` append ` UNION <q>` /
` UNION ALL <q>` to the accumulated tail. -/
theorem union_omits_order_by :
    (∀ (s : SqlBuilder) (q : String), (s.union q).unions = s.unions ++ " UNION " ++ q) ∧
    (∀ (s : SqlBuilder) (q : String),
        (s.union_all q).unions = s.unions ++ " UNION ALL " ++ q) ∧
    (∀ s : SqlBuilder, s.unions ≠ "" → s.make_order = "") ∧
    (∀ (s : SqlBuilder) (os : List String), s.unions ≠ "" →
        ({ s with order_list := os } : SqlBuilder).sql = s.sql) ∧
    (∀ s : SqlBuilder, s.smt = .select_from → s.table ≠ "" → s.unions ≠ "" →
        s.limit_opt = none → s.offset_opt = none →
        s.sql = .ok (s.select_head ++ make_wheres s.wheres ++ s.unions ++ ";")) := by
  refine ⟨fun s q => rfl, fun s q => rfl, make_order_empty, ?_, ?_⟩
  · intro s os hu
    obtain ⟨smt, table, d, fl, jl, sl, vl, ss, gl, ho, whs, un, ol, lo, oo⟩ := s
    simp only at hu
    cases smt
    · by_cases h : table = ""
      · simp [SqlBuilder.sql, h]
      · simp [SqlBuilder.sql, h, SqlBuilder.query_core, SqlBuilder.select_tail,
          SqlBuilder.make_order, hu]
        rfl
    · rfl
    · rfl
    · rfl
    · rfl
  · intro s h ht hu hl ho2
    obtain ⟨smt, table, d, fl, jl, sl, vl, ss, gl, ho, whs, un, ol, lo, oo⟩ := s
    simp only at h ht hu hl ho2
    subst h
    subst hl
    subst ho2
    rw [sql_select_eq _ rfl ht]
    simp only [SqlBuilder.query_core, SqlBuilder.select_tail]
    rw [make_order_empty _ hu]
    simp only [SqlBuilder.make_limit, SqlBuilder.make_offset, String.append_empty,
      String.append_assoc]

/-- C9 witness: the theorem applied to a builder carrying both an
`order_desc` entry and a union fragment; the ORDER BY entry is absent
from the output. -/
theorem union_omits_order_by_witness :
    ((((SqlBuilder.select_from "books").field "title").order_desc "price").union
        "SELECT a FROM b").sql
      = .ok "SELECT title FROM books UNION SELECT a FROM b;" := by
  have h := union_omits_order_by.2.2.2.2
    ((((SqlBuilder.select_from "books").field "title").order_desc "price").union
      "SELECT a FROM b") rfl (by decide) (by decide) rfl rfl
  exact h.trans (by rfl)

/-- C10: a Select with `offset` set but no `limit` renders a trailing
`OFFSET n` clause with no LIMIT clause before it; when both are set,
LIMIT is rendered immediately before OFFSET. -/
theorem offset_without_limit :
    (∀ (s : SqlBuilder) (n : String), s.smt = .select_from → s.table ≠ "" →
        s.limit_opt = none → s.offset_opt = some n →
        s.sql = .ok (s.select_head ++ make_wheres s.wheres ++ s.unions ++
          s.make_order ++ " OFFSET " ++ n ++ ";")) ∧
    (∀ (s : SqlBuilder) (l n : String), s.smt = .select_from → s.table ≠ "" →
        s.limit_opt = some l → s.offset_opt = some n →
        s.sql = .ok (s.select_head ++ make_wheres s.wheres ++ s.unions ++
          s.make_order ++ " LIMIT " ++ l ++ " OFFSET " ++ n ++ ";")) := by
  constructor
  · intro s n h ht hl ho2
    obtain ⟨smt, table, d, fl, jl, sl, vl, ss, gl, ho, whs, un, ol, lo, oo⟩ := s
    simp only at h ht hl ho2
    subst h
    subst hl
    subst ho2
    rw [sql_select_eq _ rfl ht]
    simp only [SqlBuilder.query_core, SqlBuilder.select_tail, SqlBuilder.make_limit,
      SqlBuilder.make_offset, String.append_empty, String.append_assoc]
  · intro s l n h ht hl ho2
    obtain ⟨smt, table, d, fl, jl, sl, vl, ss, gl, ho, whs, un, ol, lo, oo⟩ := s
    simp only at h ht hl ho2
    subst h
    subst hl
    subst ho2
    rw [sql_select_eq _ rfl ht]
    simp only [SqlBuilder.query_core, SqlBuilder.select_tail, SqlBuilder.make_limit,
      SqlBuilder.make_offset, String.append_assoc]

/-- C10 witness: the theorem applied to the repository's
offset-without-limit test case. -/
theorem offset_without_limit_witness :
    ((((SqlBuilder.select_from "books").field "title").order_asc "title").offset "2").sql
      = .ok "SELECT title FROM books ORDER BY title OFFSET 2;" := by
  have h := offset_without_limit.1
    ((((SqlBuilder.select_from "books").field "title").order_asc "title").offset "2")
    "2" rfl (by decide) rfl rfl
  exact h.trans (by rfl)
